import Mathlib

/-
Shallow embedding of the ledger-consistency core of the
banking-ledger-service repository.

Conventions of the embedding:
* Monetary values (float64 in the code, DECIMAL(15,2) in Postgres) are
  modelled as exact rationals; every claim is about one addition or
  subtraction and one comparison, which float rounding does not enter at
  the granularity of the claims.
* Errors are their message strings, because the program itself treats
  them that way: the worker classifies errors by substring matching on
  the message (worker/trans_worker.go, isBusinessError), and fmt.Errorf
  with a %w verb produces the message "prefix: inner".
* The two stores are maps: account id to balance, and transaction id to
  transaction record.  The Mongo store is keyed by the transactionid
  field (every query in storage/mongodb.go filters on it), so the map
  key of the ledger is that field.
* Wall-clock fields (CreatedAt, UpdatedAt, Timestamp) are not modelled:
  no claim mentions them.
* Infrastructure failures of the ledger store are modelled by the two
  Option String fields of World: createErr is the error the interface
  method CreateTransaction returns (none means success), updateErr the
  same for UpdateTransaction.
-/

namespace BankingLedger

/-- Transaction request body (models/models.go, TransactionRequest). -/
structure TransactionRequest where
  type : String
  amount : ℚ
  description : String
deriving DecidableEq

/-- Transaction record (models/models.go, Transaction); the Timestamp
field is not modelled. -/
structure Transaction where
  id : String
  transactionID : String
  accountID : String
  type : String
  amount : ℚ
  previousBalance : ℚ
  newBalance : ℚ
  description : String
  status : String
  errorMessage : String
deriving DecidableEq

/-- Queue message (queue/rabbitmq.go, TransactionMessage); CreatedAt is
not modelled. -/
structure TransactionMessage where
  id : String
  accountID : String
  type : String
  amount : ℚ
  reference : String
deriving DecidableEq

/-- Combined state of the two stores and the queue. -/
structure World where
  accounts : String → Option ℚ
  ledger : String → Option Transaction
  queue : List TransactionMessage
  createErr : Option String
  updateErr : Option String

/-- Point update of the account map (the UPDATE statement inside
AtomicBalanceUpdate). -/
def updAccount (accounts : String → Option ℚ) (accountID : String) (b : ℚ) :
    String → Option ℚ :=
  fun x => if x = accountID then some b else accounts x

/-- Insert or replace a ledger record, keyed by its transactionid field
(storage/mongodb.go, CreateTransaction). -/
def updLedger (ledger : String → Option Transaction) (t : Transaction) :
    String → Option Transaction :=
  fun x => if x = t.transactionID then some t else ledger x

/-- UpdateTransactionStatusWithError (storage/mongodb.go): a $set of the
status and errormessage fields on the record whose transactionid field
matches. -/
def updStatusWithError (ledger : String → Option Transaction)
    (transactionID status errorMessage : String) : String → Option Transaction :=
  fun x =>
    if x = transactionID then
      match ledger x with
      | some t => some { t with status := status, errorMessage := errorMessage }
      | none => none
    else ledger x

/-- UpdateTransaction (storage/mongodb.go): a $set of the
previousbalance, newbalance, status and errormessage fields on the
record whose transactionid field matches. -/
def applyUpdateTransaction (ledger : String → Option Transaction)
    (t : Transaction) : String → Option Transaction :=
  fun x =>
    if x = t.transactionID then
      match ledger x with
      | some old => some { old with previousBalance := t.previousBalance,
                                    newBalance := t.newBalance,
                                    status := t.status,
                                    errorMessage := t.errorMessage }
      | none => none
    else ledger x

/-- Models the %.2f rendering used by fmt.Errorf in the insufficient
funds message.  No claim depends on the rendered digits, only on the
fixed words around them. -/
def fmtFloat2 (q : ℚ) : String :=
  let c : Int := Int.floor (q * 100)
  let frac : Nat := (c % 100).natAbs
  toString (c / 100) ++ "." ++ (if frac < 10 then "0" else "") ++ toString frac

/-- Message of the insufficient funds error produced by
AtomicBalanceUpdate (storage/postgres, line 584). -/
def insufficientFundsMsg (previousBalance amount : ℚ) : String :=
  "insufficient funds: current balance " ++ fmtFloat2 previousBalance ++
    ", requested " ++ fmtFloat2 amount

/-- AtomicBalanceUpdate (Postgres account storage, src/unnamed/part_001
lines 560 to 604).  The SELECT FOR UPDATE, the switch on the transaction
type, and the UPDATE run inside one SQL transaction, so the whole call
is one step on the account map.  It returns the new account map together
with either the (previousBalance, newBalance) pair or the error message.
On every error path the map is returned unchanged, exactly as the
deferred rollback leaves the table. -/
def AtomicBalanceUpdate (accounts : String → Option ℚ)
    (accountID transactionType : String) (amount : ℚ) :
    (String → Option ℚ) × Except String (ℚ × ℚ) :=
  match accounts accountID with
  | none => (accounts, .error "account not found")
  | some previousBalance =>
    if transactionType = "deposit" then
      let newBalance := previousBalance + amount
      (updAccount accounts accountID newBalance, .ok (previousBalance, newBalance))
    else if transactionType = "withdraw" then
      if previousBalance < amount then
        (accounts, .error (insufficientFundsMsg previousBalance amount))
      else
        let newBalance := previousBalance - amount
        (updAccount accounts accountID newBalance, .ok (previousBalance, newBalance))
    else
      (accounts, .error ("invalid transaction type: " ++ transactionType))

/-- validateTransactionRequest of the transaction service
(src/unnamed/part_004 lines 356 to 371): none means valid, some e is the
error message returned. -/
def validateTransactionRequest (req : TransactionRequest) : Option String :=
  if req.type ≠ "deposit" ∧ req.type ≠ "withdraw" then
    some "transaction type must be either \u0027deposit\u0027 or \u0027withdraw\u0027"
  else if req.amount ≤ 0 then
    some "amount must be greater than 0"
  else
    none

/-- ProcessTransaction, the synchronous path of the transaction service
(src/unnamed/part_004 lines 106 to 167).  newID and newTransactionID
stand for the two NewTransactionID calls.  On a ledger-write failure the
code reverses the balance mutation with the inverse transaction type and
discards the result of that call. -/
def ProcessTransaction (w : World) (accountID : String)
    (req : TransactionRequest) (newID newTransactionID : String) :
    World × Except String Transaction :=
  match validateTransactionRequest req with
  | some e => (w, .error e)
  | none =>
    match AtomicBalanceUpdate w.accounts accountID req.type req.amount with
    | (accounts1, .error e) =>
      ({ w with accounts := accounts1 },
        .error ("failed to process transaction: " ++ e))
    | (accounts1, .ok (previousBalance, newBalance)) =>
      let transaction : Transaction :=
        { id := newID, transactionID := newTransactionID, accountID := accountID,
          type := req.type, amount := req.amount,
          previousBalance := previousBalance, newBalance := newBalance,
          description := req.description, status := "completed", errorMessage := "" }
      match w.createErr with
      | some ce =>
        let rollbackType := if req.type = "withdraw" then "deposit" else "withdraw"
        match AtomicBalanceUpdate accounts1 accountID rollbackType req.amount with
        | (accounts2, _) =>
          ({ w with accounts := accounts2 },
            .error ("failed to save transaction: " ++ ce))
      | none =>
        ({ w with accounts := accounts1, ledger := updLedger w.ledger transaction },
          .ok transaction)

/-- GetTransactionByID of the transaction service (src/unnamed/part_004
lines 294 to 318) over the Mongo store (storage/mongodb.go lines 133 to
147). -/
def GetTransactionByID (ledger : String → Option Transaction)
    (transactionID : String) : Except String Transaction :=
  if transactionID = "" then .error "transaction ID is required"
  else
    match ledger transactionID with
    | none => .error "failed to get transaction: transaction not found"
    | some t => .ok t

/-- ProcessTransactionAsync, the worker-driven path of the transaction
service (src/unnamed/part_004 lines 170 to 246).  The failure of the
final UpdateTransaction is governed by World.updateErr; the status
updates on the failure paths are the fire-and-forget
UpdateTransactionStatusWithError calls whose own result the code
discards. -/
def ProcessTransactionAsync (w : World) (transactionID : String)
    (req : TransactionRequest) : World × Except String Transaction :=
  match GetTransactionByID w.ledger transactionID with
  | .error e => (w, .error ("pending transaction not found: " ++ e))
  | .ok transaction =>
    if transaction.status ≠ "pending" then
      (w, .error ("transaction is not in pending state: " ++ transaction.status))
    else
      match validateTransactionRequest req with
      | some e =>
        ({ w with ledger := updStatusWithError w.ledger transactionID "failed" e },
          .error e)
      | none =>
        match AtomicBalanceUpdate w.accounts transaction.accountID req.type req.amount with
        | (accounts1, .error e) =>
          ({ w with accounts := accounts1,
                    ledger := updStatusWithError w.ledger transactionID "failed" e },
            .error ("failed to update balance: " ++ e))
        | (accounts1, .ok (previousBalance, newBalance)) =>
          let updatedTransaction : Transaction :=
            { transaction with previousBalance := previousBalance,
                               newBalance := newBalance,
                               status := "completed", errorMessage := "" }
          match w.updateErr with
          | some ue =>
            let rollbackType := if req.type = "withdraw" then "deposit" else "withdraw"
            match AtomicBalanceUpdate accounts1 transaction.accountID rollbackType req.amount with
            | (accounts2, _) =>
              ({ w with accounts := accounts2,
                        ledger := updStatusWithError w.ledger transactionID "failed"
                                    "Failed to update transaction record" },
                .error ("failed to update transaction: " ++ ue))
          | none =>
            ({ w with accounts := accounts1,
                      ledger := applyUpdateTransaction w.ledger updatedTransaction },
              .ok updatedTransaction)

/-- Character list version of the Go strings.HasPref check used below. -/
def strStartsWith : List Char → List Char → Bool
  | _, [] => true
  | [], _ :: _ => false
  | c :: s, p :: ps => c == p && strStartsWith s ps

/-- Occurrence check on character lists. -/
def strContainsL : List Char → List Char → Bool
  | [], pat => strStartsWith [] pat
  | c :: s, pat => strStartsWith (c :: s) pat || strContainsL s pat

/-- Models strings.Contains. -/
def goContains (s pat : String) : Bool := strContainsL s.data pat.data

/-- Models strings.ToLower (ASCII folding; every message below is
ASCII). -/
def goToLower (s : String) : String := ⟨s.data.map Char.toLower⟩

/-- Allow-list of worker/trans_worker.go, isBusinessError, lines 114 to
120. -/
def businessErrors : List String :=
  ["insufficient funds",
   "invalid transaction type",
   "account not found",
   "amount must be greater than 0",
   "transaction is not in pending state"]

/-- isBusinessError (worker/trans_worker.go lines 112 to 128): lowercase
the message and look for any allow-listed substring. -/
def isBusinessError (err : String) : Bool :=
  let errorMsg := goToLower err
  businessErrors.any fun busErr => goContains errorMsg busErr

/-- Outcome of one delivery in processMessage
(worker/trans_worker.go). -/
inductive MsgOutcome where
  | ackOk
  | ackBusinessFailure
  | nackRequeue
deriving DecidableEq

/-- Decision part of processMessage (worker/trans_worker.go lines 89 to
108) on the result of ProcessTransactionAsync: acknowledge on success,
acknowledge a business error, reject with redelivery otherwise.  The
decode-failure branch (Nack without requeue) happens before the service
is called and is outside this function. -/
def processMessageDecision (r : Except String Transaction) : MsgOutcome :=
  match r with
  | .ok _ => .ackOk
  | .error e => if isBusinessError e then .ackBusinessFailure else .nackRequeue

/-- HTTP-level outcome of the async submission handler. -/
inductive HttpResult where
  | notFound
  | badInsufficient
  | createFailed
  | accepted (transactionID : String)
  | syncOutcome (r : Except String Transaction)

/-- Pending record built by the handler before queueing
(services/account.go lines 283 to 294). -/
def pendingTransactionFor (accountID : String) (req : TransactionRequest)
    (transactionID : String) (balance : ℚ) : Transaction :=
  { id := transactionID, transactionID := transactionID, accountID := accountID,
    type := req.type, amount := req.amount,
    previousBalance := balance, newBalance := 0,
    description := req.description, status := "pending", errorMessage := "" }

/-- processTransactionAsync of the HTTP handler (services/account.go
lines 249 to 331): validate the account, pre-check withdrawals against
the current balance, persist the pending record, publish; when the
publish fails, mark the record failed with the fixed message and run the
synchronous path on the same request.  publishOk models whether the
queue accepts the message; syncID1 and syncID2 are the ids a fallback
synchronous run would generate. -/
def handlerProcessTransactionAsync (w : World) (accountID : String)
    (req : TransactionRequest) (transactionID : String) (publishOk : Bool)
    (syncID1 syncID2 : String) : World × HttpResult :=
  match w.accounts accountID with
  | none => (w, .notFound)
  | some balance =>
    if req.type = "withdraw" ∧ balance < req.amount then
      (w, .badInsufficient)
    else
      let pendingTransaction := pendingTransactionFor accountID req transactionID balance
      match w.createErr with
      | some _ => (w, .createFailed)
      | none =>
        let w1 := { w with ledger := updLedger w.ledger pendingTransaction }
        let message : TransactionMessage :=
          { id := transactionID, accountID := accountID, type := req.type,
            amount := req.amount, reference := req.description }
        if publishOk then
          ({ w1 with queue := w1.queue ++ [message] }, .accepted transactionID)
        else
          let w2 := { w1 with ledger := updStatusWithError w1.ledger transactionID
                                          "failed" "Queue system unavailable" }
          let res := ProcessTransaction w2 accountID req syncID1 syncID2
          (res.1, .syncOutcome res.2)

end BankingLedger

namespace BankingLedger

/-- On every error path AtomicBalanceUpdate leaves the account map
exactly as it was (the deferred rollback of the SQL transaction). -/
theorem atomicBalanceUpdate_error_fst (accounts : String → Option ℚ)
    (accountID transactionType : String) (amount : ℚ) (e : String)
    (h : (AtomicBalanceUpdate accounts accountID transactionType amount).2 = .error e) :
    (AtomicBalanceUpdate accounts accountID transactionType amount).1 = accounts := by
  unfold AtomicBalanceUpdate at *
  cases hacc : accounts accountID <;> simp [hacc] at h ⊢
  split_ifs at h ⊢ <;> simp_all

/-- On success the returned pair is determined by the transaction type:
the sum on deposit, the difference on withdraw. -/
theorem atomicBalanceUpdate_ok_balances (accounts : String → Option ℚ)
    (accountID transactionType : String) (amount p n : ℚ)
    (h : (AtomicBalanceUpdate accounts accountID transactionType amount).2 = .ok (p, n)) :
    (transactionType = "deposit" → n = p + amount) ∧
    (transactionType = "withdraw" → n = p - amount) := by
  unfold AtomicBalanceUpdate at h
  cases hacc : accounts accountID <;> simp [hacc] at h
  split_ifs at h with h1 h2 h3 <;> simp_all
  · rw [← h.2, h.1]
  · rw [← h.2, h.1]

/-- A request that validates successfully has a recognized type and a
positive amount. -/
theorem validate_none_shape (req : TransactionRequest)
    (h : validateTransactionRequest req = none) :
    (req.type = "deposit" ∨ req.type = "withdraw") ∧ 0 < req.amount := by
  unfold validateTransactionRequest at h
  split_ifs at h with h1 h2
  refine ⟨?_, lt_of_not_le h2⟩
  rcases Decidable.not_and_iff_or_not.mp h1 with h3 | h3
  · exact Or.inl (Decidable.not_not.mp h3)
  · exact Or.inr (Decidable.not_not.mp h3)

end BankingLedger

namespace BankingLedger

/-- C1: for an account with balance b, AtomicBalanceUpdate returns the
pair (b, b + amount) on deposit; on withdraw it fails with the
insufficient funds error when b < amount and otherwise returns
(b, b - amount); it fails with the account-not-found error when the
account row does not exist, and with the invalid-type error for any
recognized-neither kind on an existing account. -/
theorem atomicBalanceUpdate_matches_contract (accounts : String → Option ℚ)
    (accountID kind : String) (amount b : ℚ) :
    (accounts accountID = none →
      AtomicBalanceUpdate accounts accountID kind amount
        = (accounts, .error "account not found")) ∧
    (accounts accountID = some b →
      (kind = "deposit" →
        (AtomicBalanceUpdate accounts accountID kind amount).2 = .ok (b, b + amount)) ∧
      (kind = "withdraw" → b < amount →
        AtomicBalanceUpdate accounts accountID kind amount
          = (accounts, .error (insufficientFundsMsg b amount))) ∧
      (kind = "withdraw" → amount ≤ b →
        (AtomicBalanceUpdate accounts accountID kind amount).2 = .ok (b, b - amount)) ∧
      (kind ≠ "deposit" → kind ≠ "withdraw" →
        AtomicBalanceUpdate accounts accountID kind amount
          = (accounts, .error ("invalid transaction type: " ++ kind)))) := by
  constructor
  · intro h
    simp [AtomicBalanceUpdate, h]
  · intro h
    refine ⟨?_, ?_, ?_, ?_⟩
    · intro hk
      simp [AtomicBalanceUpdate, h, hk]
    · intro hk hlt
      simp [AtomicBalanceUpdate, h, hk, hlt]
    · intro hk hle
      simp [AtomicBalanceUpdate, h, hk, not_lt.mpr hle]
    · intro hk1 hk2
      simp [AtomicBalanceUpdate, h, hk1, hk2]

/-- Account store holding a single account acc_1 at balance 500, the
running example of the spec. -/
def wAccounts : String → Option ℚ := fun x => if x = "acc_1" then some 500 else none

/-- C1 witness at the concrete store. -/
theorem atomicBalanceUpdate_matches_contract_witness :
    wAccounts "acc_none" = none ∧
    AtomicBalanceUpdate wAccounts "acc_none" "deposit" 250
      = (wAccounts, .error "account not found") ∧
    wAccounts "acc_1" = some 500 ∧
    (AtomicBalanceUpdate wAccounts "acc_1" "deposit" 250).2 = .ok (500, 500 + 250) ∧
    ((500 : ℚ) < 600) ∧
    AtomicBalanceUpdate wAccounts "acc_1" "withdraw" 600
      = (wAccounts, .error (insufficientFundsMsg 500 600)) ∧
    ((200 : ℚ) ≤ 500) ∧
    (AtomicBalanceUpdate wAccounts "acc_1" "withdraw" 200).2 = .ok (500, 500 - 200) ∧
    AtomicBalanceUpdate wAccounts "acc_1" "transfer" 10
      = (wAccounts, .error ("invalid transaction type: " ++ "transfer")) := by
  refine ⟨by decide,
    (atomicBalanceUpdate_matches_contract wAccounts "acc_none" "deposit" 250 0).1 (by decide),
    by decide,
    ((atomicBalanceUpdate_matches_contract wAccounts "acc_1" "deposit" 250 500).2
        (by decide)).1 rfl,
    by decide,
    (((atomicBalanceUpdate_matches_contract wAccounts "acc_1" "withdraw" 600 500).2
        (by decide)).2.1) rfl (by decide),
    by decide,
    (((atomicBalanceUpdate_matches_contract wAccounts "acc_1" "withdraw" 200 500).2
        (by decide)).2.2.1) rfl (by decide),
    (((atomicBalanceUpdate_matches_contract wAccounts "acc_1" "transfer" 10 500).2
        (by decide)).2.2.2) (by decide) (by decide)⟩

/-- C2: a withdrawal whose amount exceeds the balance returns the
insufficient funds error and the account map is returned exactly as it
was, so no mutation occurs on the error path. -/
theorem withdraw_overdraft_leaves_balance (accounts : String → Option ℚ)
    (accountID : String) (amount b : ℚ)
    (hacc : accounts accountID = some b) (hlt : b < amount) :
    AtomicBalanceUpdate accounts accountID "withdraw" amount
      = (accounts, .error (insufficientFundsMsg b amount)) := by
  simp [AtomicBalanceUpdate, hacc, hlt]

/-- C2 witness: balance 500.00, withdraw 600.00. -/
theorem withdraw_overdraft_leaves_balance_witness :
    wAccounts "acc_1" = some 500 ∧ ((500 : ℚ) < 600) ∧
    AtomicBalanceUpdate wAccounts "acc_1" "withdraw" 600
      = (wAccounts, .error (insufficientFundsMsg 500 600)) :=
  ⟨by decide, by decide,
    withdraw_overdraft_leaves_balance wAccounts "acc_1" 600 500 (by decide) (by decide)⟩

end BankingLedger

namespace BankingLedger

/-- C4: a stored transaction whose status is not pending makes
ProcessTransactionAsync return the not-in-pending-state error with the
whole world unchanged, so neither the account balance nor the
transaction record is touched. -/
theorem asyncNotPending_no_mutation (w : World) (transactionID : String)
    (req : TransactionRequest) (t : Transaction)
    (hid : transactionID ≠ "")
    (hlook : w.ledger transactionID = some t)
    (hstatus : t.status ≠ "pending") :
    ProcessTransactionAsync w transactionID req
      = (w, .error ("transaction is not in pending state: " ++ t.status)) := by
  simp [ProcessTransactionAsync, GetTransactionByID, hid, hlook, hstatus]

/-- Deposit request of 150.00 used by the concrete worlds below. -/
def reqDep150 : TransactionRequest :=
  { type := "deposit", amount := 150, description := "topup" }

/-- Deposit request of 250.00 used by the concrete worlds below. -/
def reqDep250 : TransactionRequest :=
  { type := "deposit", amount := 250, description := "salary" }

/-- A transaction record that already completed. -/
def completedTxn : Transaction :=
  { pendingTransactionFor "acc_1" reqDep150 "txn_done" 400 with status := "completed" }

/-- World with account acc_1 at 500 and one completed record. -/
def worldDone : World :=
  { accounts := wAccounts,
    ledger := fun x => if x = "txn_done" then some completedTxn else none,
    queue := [], createErr := none, updateErr := none }

/-- C4 witness: redelivering a message for the completed record. -/
theorem asyncNotPending_no_mutation_witness :
    ("txn_done" : String) ≠ "" ∧
    worldDone.ledger "txn_done" = some completedTxn ∧
    completedTxn.status ≠ "pending" ∧
    ProcessTransactionAsync worldDone "txn_done" reqDep150
      = (worldDone, .error ("transaction is not in pending state: " ++ completedTxn.status)) :=
  ⟨by decide, by decide, by decide,
    asyncNotPending_no_mutation worldDone "txn_done" reqDep150 completedTxn
      (by decide) (by decide) (by decide)⟩

/-- C7: a request with an unrecognized kind or a non-positive amount
makes ProcessTransaction fail with the validation error while the world
is returned untouched: no balance read or update and no ledger write
happens. -/
theorem syncValidationFailure_no_storage (w : World) (accountID : String)
    (req : TransactionRequest) (newID newTransactionID : String)
    (h : (req.type ≠ "deposit" ∧ req.type ≠ "withdraw") ∨ req.amount ≤ 0) :
    ∃ e, validateTransactionRequest req = some e ∧
      ProcessTransaction w accountID req newID newTransactionID = (w, .error e) := by
  have hsome : ∃ e, validateTransactionRequest req = some e := by
    by_cases h1 : req.type ≠ "deposit" ∧ req.type ≠ "withdraw"
    · exact ⟨"transaction type must be either \u0027deposit\u0027 or \u0027withdraw\u0027",
        by simp [validateTransactionRequest, h1]⟩
    · have h2 : req.amount ≤ 0 := h.resolve_left h1
      exact ⟨"amount must be greater than 0", by simp [validateTransactionRequest, h1, h2]⟩
  obtain ⟨e, he⟩ := hsome
  exact ⟨e, he, by simp [ProcessTransaction, he]⟩

/-- C7 witness: a transfer request and a zero-amount request. -/
theorem syncValidationFailure_no_storage_witness :
    ((("transfer" : String) ≠ "deposit" ∧ ("transfer" : String) ≠ "withdraw") ∨
        ((50 : ℚ) ≤ 0)) ∧
    (∃ e, validateTransactionRequest { type := "transfer", amount := 50, description := "" }
            = some e ∧
          ProcessTransaction worldDone "acc_1"
              { type := "transfer", amount := 50, description := "" } "i1" "i2"
            = (worldDone, .error e)) :=
  ⟨Or.inl (by decide),
    syncValidationFailure_no_storage worldDone "acc_1"
      { type := "transfer", amount := 50, description := "" } "i1" "i2"
      (Or.inl (by decide))⟩

/-- C10: on the asynchronous submission path a withdrawal larger than
the current balance is rejected with the insufficient-funds response
before the pending record is written and before anything is published:
the handler returns the world unchanged. -/
theorem asyncPreQueueOverdraft_rejected (w : World) (accountID : String)
    (req : TransactionRequest) (transactionID : String) (publishOk : Bool)
    (syncID1 syncID2 : String) (b : ℚ)
    (hacc : w.accounts accountID = some b)
    (htype : req.type = "withdraw")
    (hlt : b < req.amount) :
    handlerProcessTransactionAsync w accountID req transactionID publishOk syncID1 syncID2
      = (w, .badInsufficient) := by
  simp [handlerProcessTransactionAsync, hacc, htype, hlt]

/-- C10 witness: withdraw 600.00 against balance 500.00. -/
theorem asyncPreQueueOverdraft_rejected_witness :
    worldDone.accounts "acc_1" = some 500 ∧
    ({ type := "withdraw", amount := 600, description := "rent" } : TransactionRequest).type
        = "withdraw" ∧
    ((500 : ℚ) < ({ type := "withdraw", amount := 600, description := "rent" } :
        TransactionRequest).amount) ∧
    handlerProcessTransactionAsync worldDone "acc_1"
        { type := "withdraw", amount := 600, description := "rent" } "txn_q" true "s1" "s2"
      = (worldDone, .badInsufficient) :=
  ⟨by decide, by decide, by decide,
    asyncPreQueueOverdraft_rejected worldDone "acc_1"
      { type := "withdraw", amount := 600, description := "rent" } "txn_q" true "s1" "s2" 500
      (by decide) (by decide) (by decide)⟩

end BankingLedger

namespace BankingLedger

/-- C3: on the synchronous path, when the balance update succeeds and
the ledger write then fails, ProcessTransaction reverses the mutation by
one more call to the balance primitive with the inverse kind and the
same amount, so the account balance after the call equals the balance
before it, and the call returns the ledger-write error. -/
theorem syncLedgerFailure_restores_balance (w : World) (accountID : String)
    (req : TransactionRequest) (newID newTransactionID : String) (b : ℚ) (ce : String)
    (hval : validateTransactionRequest req = none)
    (hacc : w.accounts accountID = some b)
    (hb : 0 ≤ b)
    (hfunds : req.type = "withdraw" → req.amount ≤ b)
    (hcreate : w.createErr = some ce) :
    (ProcessTransaction w accountID req newID newTransactionID).2
        = .error ("failed to save transaction: " ++ ce) ∧
    (ProcessTransaction w accountID req newID newTransactionID).1.accounts accountID
        = some b := by
  obtain ⟨htype, hpos⟩ := validate_none_shape req hval
  rcases htype with hd | hw
  · have hnl : ¬ (b + req.amount < req.amount) := not_lt.mpr (le_add_of_nonneg_left hb)
    have hlk : updAccount w.accounts accountID (b + req.amount) accountID
        = some (b + req.amount) := by
      simp [updAccount]
    have h1 : AtomicBalanceUpdate w.accounts accountID "deposit" req.amount
        = (updAccount w.accounts accountID (b + req.amount), .ok (b, b + req.amount)) := by
      simp [AtomicBalanceUpdate, hacc]
    have h2 : AtomicBalanceUpdate (updAccount w.accounts accountID (b + req.amount))
          accountID "withdraw" req.amount
        = (updAccount (updAccount w.accounts accountID (b + req.amount)) accountID
              (b + req.amount - req.amount),
           .ok (b + req.amount, b + req.amount - req.amount)) := by
      simp [AtomicBalanceUpdate, hlk, hnl]
    simp only [ProcessTransaction, hval, hcreate, hd, h1, reduceIte, String.reduceEq, h2]
    exact ⟨trivial, by simp [updAccount]⟩
  · have ha : req.amount ≤ b := hfunds hw
    have hlk : updAccount w.accounts accountID (b - req.amount) accountID
        = some (b - req.amount) := by
      simp [updAccount]
    have h1 : AtomicBalanceUpdate w.accounts accountID "withdraw" req.amount
        = (updAccount w.accounts accountID (b - req.amount), .ok (b, b - req.amount)) := by
      simp [AtomicBalanceUpdate, hacc, not_lt.mpr ha]
    have h2 : AtomicBalanceUpdate (updAccount w.accounts accountID (b - req.amount))
          accountID "deposit" req.amount
        = (updAccount (updAccount w.accounts accountID (b - req.amount)) accountID
              (b - req.amount + req.amount),
           .ok (b - req.amount, b - req.amount + req.amount)) := by
      simp [AtomicBalanceUpdate, hlk]
    simp only [ProcessTransaction, hval, hcreate, hw, h1, reduceIte, String.reduceEq, h2]
    exact ⟨trivial, by simp [updAccount]⟩


/-- World whose ledger store rejects inserts. -/
def worldCreateFail : World :=
  { accounts := wAccounts, ledger := fun _ => none, queue := [],
    createErr := some "mongo write failed", updateErr := none }

/-- C3 witness: deposit 250.00 on balance 500.00 with a failing ledger
write. -/
theorem syncLedgerFailure_restores_balance_witness :
    validateTransactionRequest reqDep250 = none ∧
    worldCreateFail.accounts "acc_1" = some 500 ∧
    ((0 : ℚ) ≤ 500) ∧
    (reqDep250.type = "withdraw" → reqDep250.amount ≤ 500) ∧
    worldCreateFail.createErr = some "mongo write failed" ∧
    ((ProcessTransaction worldCreateFail "acc_1" reqDep250 "i1" "i2").2
        = .error ("failed to save transaction: " ++ "mongo write failed") ∧
      (ProcessTransaction worldCreateFail "acc_1" reqDep250 "i1" "i2").1.accounts "acc_1"
        = some 500) :=
  ⟨by decide, by decide, by decide, by decide, by decide,
    syncLedgerFailure_restores_balance worldCreateFail "acc_1" reqDep250 "i1" "i2" 500
      "mongo write failed" (by decide) (by decide) (by decide) (by decide) (by decide)⟩

end BankingLedger

namespace BankingLedger

/-- C6: every transaction record the engine returns and writes with
status completed satisfies newBalance = previousBalance + amount on
deposit and newBalance = previousBalance - amount on withdraw, on the
synchronous path unconditionally and on the asynchronous path whenever
the queued request restates the kind and amount of the stored pending
record (which is how the handler builds the intent message). -/
theorem completedRecord_balances_match :
    (∀ (w : World) (accountID : String) (req : TransactionRequest)
        (newID newTransactionID : String) (t : Transaction),
        (ProcessTransaction w accountID req newID newTransactionID).2 = .ok t →
        t.status = "completed" ∧
        (t.type = "deposit" → t.newBalance = t.previousBalance + t.amount) ∧
        (t.type = "withdraw" → t.newBalance = t.previousBalance - t.amount) ∧
        (ProcessTransaction w accountID req newID newTransactionID).1.ledger
            t.transactionID = some t) ∧
    (∀ (w : World) (transactionID : String) (req : TransactionRequest)
        (t0 t : Transaction),
        w.ledger transactionID = some t0 →
        t0.type = req.type → t0.amount = req.amount →
        (ProcessTransactionAsync w transactionID req).2 = .ok t →
        (t.status = "completed" ∧
          (t.type = "deposit" → t.newBalance = t.previousBalance + t.amount) ∧
          (t.type = "withdraw" → t.newBalance = t.previousBalance - t.amount)) ∧
        (t0.transactionID = transactionID →
          ∃ t1, (ProcessTransactionAsync w transactionID req).1.ledger transactionID
                  = some t1 ∧
            t1.status = "completed" ∧
            (t1.type = "deposit" → t1.newBalance = t1.previousBalance + t1.amount) ∧
            (t1.type = "withdraw" → t1.newBalance = t1.previousBalance - t1.amount))) := by
  constructor
  · intro w accountID req newID newTransactionID t h
    cases hval : validateTransactionRequest req with
    | some e => simp [ProcessTransaction, hval] at h
    | none =>
      cases hab : AtomicBalanceUpdate w.accounts accountID req.type req.amount with
      | mk accounts1 r =>
        cases r with
        | error e => simp [ProcessTransaction, hval, hab] at h
        | ok pn =>
          obtain ⟨p, n⟩ := pn
          cases hce : w.createErr with
          | some ce => simp [ProcessTransaction, hval, hab, hce] at h
          | none =>
            have hbal := atomicBalanceUpdate_ok_balances w.accounts accountID req.type
              req.amount p n (by rw [hab])
            simp [ProcessTransaction, hval, hab, hce] at h
            subst h
            refine ⟨rfl, ?_, ?_, ?_⟩
            · intro ht
              simpa using hbal.1 ht
            · intro ht
              simpa using hbal.2 ht
            · simp [ProcessTransaction, hval, hab, hce, updLedger]
  · intro w transactionID req t0 t hlook htype hamount h
    by_cases htid : transactionID = ""
    · simp [ProcessTransactionAsync, GetTransactionByID, htid] at h
    · by_cases hstat : t0.status = "pending"
      · cases hval : validateTransactionRequest req with
        | some e => simp [ProcessTransactionAsync, GetTransactionByID, htid, hlook,
            hstat, hval] at h
        | none =>
          cases hab : AtomicBalanceUpdate w.accounts t0.accountID req.type req.amount with
          | mk accounts1 r =>
            cases r with
            | error e => simp [ProcessTransactionAsync, GetTransactionByID, htid, hlook,
                hstat, hval, hab] at h
            | ok pn =>
              obtain ⟨p, n⟩ := pn
              cases hue : w.updateErr with
              | some ue => simp [ProcessTransactionAsync, GetTransactionByID, htid, hlook,
                  hstat, hval, hab, hue] at h
              | none =>
                have hbal := atomicBalanceUpdate_ok_balances w.accounts t0.accountID
                  req.type req.amount p n (by rw [hab])
                simp [ProcessTransactionAsync, GetTransactionByID, htid, hlook, hstat,
                  hval, hab, hue] at h
                subst h
                refine ⟨⟨rfl, ?_, ?_⟩, ?_⟩
                · intro ht
                  simpa [hamount] using hbal.1 (htype ▸ ht)
                · intro ht
                  simpa [hamount] using hbal.2 (htype ▸ ht)
                · intro hkey
                  refine ⟨{ t0 with previousBalance := p, newBalance := n, status := "completed", errorMessage := "" }, ?_, rfl, ?_, ?_⟩
                  · simp [ProcessTransactionAsync, GetTransactionByID, htid, hlook, hstat,
                      hval, hab, hue, applyUpdateTransaction, hkey]
                  · intro ht
                    simpa [hamount] using hbal.1 (htype ▸ ht)
                  · intro ht
                    simpa [hamount] using hbal.2 (htype ▸ ht)
      · simp [ProcessTransactionAsync, GetTransactionByID, htid, hlook, hstat] at h


/-- Completed record the synchronous witness run produces. -/
def tSync : Transaction :=
  { id := "i1", transactionID := "i2", accountID := "acc_1", type := "deposit",
    amount := 250, previousBalance := 500, newBalance := 500 + 250,
    description := "salary", status := "completed", errorMessage := "" }

/-- Pending record for the asynchronous witness run. -/
def pendingTxn : Transaction := pendingTransactionFor "acc_1" reqDep150 "txn_p" 500

/-- World holding the pending record and account acc_1 at 500. -/
def worldPending : World :=
  { accounts := wAccounts,
    ledger := fun x => if x = "txn_p" then some pendingTxn else none,
    queue := [], createErr := none, updateErr := none }

/-- Completed record the asynchronous witness run produces. -/
def tAsync : Transaction :=
  { pendingTxn with
    previousBalance := 500
    newBalance := 500 + 150
    status := "completed"
    errorMessage := "" }

/-- C6 witness: deposit 250.00 synchronously and a pending deposit of
150.00 asynchronously, both on balance 500.00. -/
theorem completedRecord_balances_match_witness :
    ((ProcessTransaction worldDone "acc_1" reqDep250 "i1" "i2").2 = .ok tSync ∧
      tSync.status = "completed" ∧
      (tSync.type = "deposit" → tSync.newBalance = tSync.previousBalance + tSync.amount) ∧
      (tSync.type = "withdraw" → tSync.newBalance = tSync.previousBalance - tSync.amount) ∧
      (ProcessTransaction worldDone "acc_1" reqDep250 "i1" "i2").1.ledger
          tSync.transactionID = some tSync) ∧
    (worldPending.ledger "txn_p" = some pendingTxn ∧
      pendingTxn.type = reqDep150.type ∧
      pendingTxn.amount = reqDep150.amount ∧
      (ProcessTransactionAsync worldPending "txn_p" reqDep150).2 = .ok tAsync ∧
      (tAsync.status = "completed" ∧
        (tAsync.type = "deposit" → tAsync.newBalance = tAsync.previousBalance + tAsync.amount) ∧
        (tAsync.type = "withdraw" → tAsync.newBalance = tAsync.previousBalance - tAsync.amount)) ∧
      (pendingTxn.transactionID = "txn_p" →
        ∃ t1, (ProcessTransactionAsync worldPending "txn_p" reqDep150).1.ledger "txn_p"
                = some t1 ∧
          t1.status = "completed" ∧
          (t1.type = "deposit" → t1.newBalance = t1.previousBalance + t1.amount) ∧
          (t1.type = "withdraw" → t1.newBalance = t1.previousBalance - t1.amount))) := by
  have hsync : (ProcessTransaction worldDone "acc_1" reqDep250 "i1" "i2").2 = .ok tSync := by
    rfl
  have hasync : (ProcessTransactionAsync worldPending "txn_p" reqDep150).2 = .ok tAsync := by
    rfl
  have h1 := completedRecord_balances_match.1 worldDone "acc_1" reqDep250 "i1" "i2" tSync hsync
  have h2 := completedRecord_balances_match.2 worldPending "txn_p" reqDep150 pendingTxn tAsync
    (by rfl) (by rfl) (by rfl) hasync
  exact ⟨⟨hsync, h1.1, h1.2.1, h1.2.2.1, h1.2.2.2⟩,
    ⟨by rfl, by rfl, by rfl, hasync, h2.1, h2.2⟩⟩

end BankingLedger

namespace BankingLedger

/-- C8 counterexample: with no account row, the Balance Store error is
the string account not found, while ProcessTransaction returns it
prefixed, so the error is not propagated unchanged. -/
theorem syncBalanceError_wrapped_cex :
    (ProcessTransaction worldDone "acc_missing" reqDep250 "i1" "i2").2
      = .error "failed to process transaction: account not found" ∧
    ("failed to process transaction: account not found" : String) ≠ "account not found" :=
  ⟨by rfl, by decide⟩

/-- C8 as amended: when the atomic balance update fails, the returned
error is the Balance Store error wrapped with the fixed prefix, and the
world is returned unchanged, so no ledger write is attempted. -/
theorem syncBalanceError_wrapped (w : World) (accountID : String)
    (req : TransactionRequest) (newID newTransactionID : String) (e : String)
    (hval : validateTransactionRequest req = none)
    (herr : (AtomicBalanceUpdate w.accounts accountID req.type req.amount).2 = .error e) :
    ProcessTransaction w accountID req newID newTransactionID
      = (w, .error ("failed to process transaction: " ++ e)) := by
  have hfst := atomicBalanceUpdate_error_fst w.accounts accountID req.type req.amount e herr
  have hpair : AtomicBalanceUpdate w.accounts accountID req.type req.amount
      = (w.accounts, Except.error e) := by
    cases hab : AtomicBalanceUpdate w.accounts accountID req.type req.amount with
    | mk a r =>
      rw [hab] at hfst herr
      simp only at hfst herr
      rw [hfst, herr]
  simp [ProcessTransaction, hval, hpair]

/-- C8 witness: the account row is missing, the store error is the
constant account not found message. -/
theorem syncBalanceError_wrapped_witness :
    validateTransactionRequest reqDep250 = none ∧
    (AtomicBalanceUpdate worldDone.accounts "acc_missing" reqDep250.type
        reqDep250.amount).2 = .error "account not found" ∧
    ProcessTransaction worldDone "acc_missing" reqDep250 "i1" "i2"
      = (worldDone, .error ("failed to process transaction: " ++ "account not found")) :=
  ⟨by decide, by rfl,
    syncBalanceError_wrapped worldDone "acc_missing" reqDep250 "i1" "i2"
      "account not found" (by decide) (by rfl)⟩

end BankingLedger

namespace BankingLedger

/-- World after the pending record has been inserted and then marked
failed because the queue publish did not go through. -/
def markedWorld (w : World) (accountID : String) (req : TransactionRequest)
    (transactionID : String) (b : ℚ) : World :=
  { w with
    ledger :=
      updStatusWithError
        (updLedger w.ledger (pendingTransactionFor accountID req transactionID b))
        transactionID "failed" "Queue system unavailable" }

/-- C9 counterexample: the message written on the publish-failure path
is Queue system unavailable with a capital Q, not the lowercase string
the claim quotes. -/
theorem queuePublishFailure_message_cex :
    (((handlerProcessTransactionAsync worldDone "acc_1" reqDep250 "txn_q" false
          "s1" "s2").1.ledger "txn_q").map (fun t => (t.status, t.errorMessage)))
      = some ("failed", "Queue system unavailable") ∧
    ("Queue system unavailable" : String) ≠ "queue system unavailable" :=
  ⟨by rfl, by decide⟩

/-- C9 as amended: when the publish fails after the pending record was
persisted, the record is updated to status failed with the error message
Queue system unavailable, and the very same request is then run through
the synchronous path on the marked world, whose outcome the handler
returns. -/
theorem queuePublishFailure_fallback (w : World) (accountID : String)
    (req : TransactionRequest) (transactionID syncID1 syncID2 : String) (b : ℚ)
    (hacc : w.accounts accountID = some b)
    (hpre : ¬(req.type = "withdraw" ∧ b < req.amount))
    (hcreate : w.createErr = none) :
    handlerProcessTransactionAsync w accountID req transactionID false syncID1 syncID2
      = ((ProcessTransaction (markedWorld w accountID req transactionID b)
            accountID req syncID1 syncID2).1,
         .syncOutcome (ProcessTransaction (markedWorld w accountID req transactionID b)
            accountID req syncID1 syncID2).2) ∧
    (markedWorld w accountID req transactionID b).ledger transactionID
      = some { pendingTransactionFor accountID req transactionID b with
               status := "failed", errorMessage := "Queue system unavailable" } := by
  constructor
  · simp [handlerProcessTransactionAsync, hacc, hpre, hcreate, markedWorld]
  · simp [markedWorld, updStatusWithError, updLedger, pendingTransactionFor]

/-- C9 witness: deposit 250.00 on balance 500.00 with the queue down. -/
theorem queuePublishFailure_fallback_witness :
    worldDone.accounts "acc_1" = some 500 ∧
    ¬(reqDep250.type = "withdraw" ∧ (500 : ℚ) < reqDep250.amount) ∧
    worldDone.createErr = none ∧
    (handlerProcessTransactionAsync worldDone "acc_1" reqDep250 "txn_q" false "s1" "s2"
        = ((ProcessTransaction (markedWorld worldDone "acc_1" reqDep250 "txn_q" 500)
              "acc_1" reqDep250 "s1" "s2").1,
           .syncOutcome (ProcessTransaction
              (markedWorld worldDone "acc_1" reqDep250 "txn_q" 500)
              "acc_1" reqDep250 "s1" "s2").2) ∧
      (markedWorld worldDone "acc_1" reqDep250 "txn_q" 500).ledger "txn_q"
        = some { pendingTransactionFor "acc_1" reqDep250 "txn_q" 500 with
                 status := "failed", errorMessage := "Queue system unavailable" }) :=
  ⟨by decide, by decide, by decide,
    queuePublishFailure_fallback worldDone "acc_1" reqDep250 "txn_q" "s1" "s2" 500
      (by decide) (by decide) (by decide)⟩

/-- C5: the invalid-type business error is not recognized by the worker
classifier.  On a pending record and a message whose kind is transfer,
ProcessTransactionAsync returns the validation message, isBusinessError
rejects it (its allow-list expects the storage-layer phrase invalid
transaction type, which the service-level validation never emits), and
the worker therefore rejects the delivery with requeue instead of
acknowledging it. -/
theorem invalidType_error_not_business :
    (ProcessTransactionAsync worldPending "txn_p"
        { type := "transfer", amount := 50, description := "" }).2
      = .error "transaction type must be either 'deposit' or 'withdraw'" ∧
    isBusinessError
        "transaction type must be either 'deposit' or 'withdraw'"
      = false ∧
    processMessageDecision (Except.error
        "transaction type must be either 'deposit' or 'withdraw'")
      = MsgOutcome.nackRequeue ∧
    isBusinessError "failed to update balance: account not found" = true ∧
    isBusinessError "amount must be greater than 0" = true ∧
    isBusinessError "transaction is not in pending state: completed" = true :=
  ⟨by rfl, by decide, by decide, by decide, by decide, by decide⟩

end BankingLedger
